import Mathlib

/-!
Verification of the trading-signal estimation pipeline of the TCAPY Telegram
bot (src/bot.js).  The five core functions — calculateVolume,
getPriceAtTime, estimateVolumeDistribution (with its inner
calculateBuyRatio), generateBuyZones, generateSignalMessage — and the
relevant fragments of sendTcapySignal (timeframe selection, buy/sell ratio,
actual-vs-estimated reconciliation) are shallowly embedded over exact
rationals.  JavaScript numbers are modelled by ℚ extended with NaN and the
two infinities where division by zero matters; fields of raw API records
that may be missing or unparseable are modelled as Option values (a missing
or unparseable field behaves like a falsy/NaN field in the source).
-/

/-- JavaScript number results that can leave the finite range: a finite
rational, NaN, or a signed infinity.  Used where the source can divide by
zero (Math.round(value / currentPrice)) or compare NaN. -/
inductive JSNum where
  | num (q : ℚ)
  | nan
  | inf
  | negInf
deriving DecidableEq, Repr

/-- JavaScript division a / b on finite operands: b = 0 yields NaN when
a = 0, otherwise a signed infinity (currentPrice enters as +0). -/
def jdiv (a b : ℚ) : JSNum :=
  if b = 0 then (if a = 0 then JSNum.nan else if 0 < a then JSNum.inf else JSNum.negInf)
  else JSNum.num (a / b)

/-- Math.round on a finite value: half-up, i.e. floor(q + 1/2). -/
def jroundQ (q : ℚ) : ℚ := ⌊q + 1/2⌋

/-- Math.round lifted to JSNum: NaN and infinities pass through. -/
def jround : JSNum → JSNum
  | JSNum.num q => JSNum.num (jroundQ q)
  | x => x

/-- Add a finite rational to a JSNum (the += accumulation in bucket maps). -/
def jaddQ : JSNum → ℚ → JSNum
  | JSNum.num a, b => JSNum.num (a + b)
  | x, _ => x

/-- JavaScript comparison change >= b where change may be NaN or infinite:
NaN compares false everywhere. -/
def jge : JSNum → ℚ → Bool
  | JSNum.num q, b => decide (b ≤ q)
  | JSNum.inf, _ => true
  | _, _ => false

/-- JavaScript comparison change > b. -/
def jgtn : JSNum → ℚ → Bool
  | JSNum.num q, b => decide (b < q)
  | JSNum.inf, _ => true
  | _, _ => false

/-- JavaScript comparison change <= b. -/
def jle : JSNum → ℚ → Bool
  | JSNum.num q, b => decide (q ≤ b)
  | JSNum.negInf, _ => true
  | _, _ => false

/-- JavaScript comparison change < b. -/
def jltn : JSNum → ℚ → Bool
  | JSNum.num q, b => decide (q < b)
  | JSNum.negInf, _ => true
  | _, _ => false

/-- A raw trade record as delivered by the exchange API (src/bot.js uses the
fields time, price, qty, isBuyerMaker).  time/price/qty arrive as strings;
a field that is missing, falsy, or fails parseInt/parseFloat is modelled as
none — every consumer in the source either skips such a record or sends it
down a path whose output is discarded. -/
structure Trade where
  time : Option ℤ
  price : Option ℚ
  qty : Option ℚ
  isBuyerMaker : Bool
deriving DecidableEq, Repr

/-- The four accumulators returned by calculateVolume (src/bot.js:285). -/
@[ext] structure VolumeWindow where
  totalSellValue : ℚ
  totalSellAmount : ℚ
  totalBuyValue : ℚ
  totalBuyAmount : ℚ
deriving DecidableEq, Repr

/-- The all-zero window returned for empty or fully skipped input. -/
def volumeZero : VolumeWindow := ⟨0, 0, 0, 0⟩

/-- One step of the trades.forEach loop in calculateVolume
(src/bot.js:301-320): skip records with a missing/unparseable field, skip
records older than startTime, otherwise add price*qty and qty to the sell
side when isBuyerMaker, else to the buy side.  There is no upper bound on
the timestamp in the source. -/
def volStep (startTime : ℤ) (w : VolumeWindow) (t : Trade) : VolumeWindow :=
  match t.time, t.price, t.qty with
  | some tm, some price, some qty =>
    if tm < startTime then w
    else
      let value := price * qty
      if t.isBuyerMaker then
        { w with totalSellValue := w.totalSellValue + value,
                 totalSellAmount := w.totalSellAmount + qty }
      else
        { w with totalBuyValue := w.totalBuyValue + value,
                 totalBuyAmount := w.totalBuyAmount + qty }
  | _, _, _ => w

/-- calculateVolume (src/bot.js:285-328).  The early return for an empty
array yields the same all-zero record as the fold does. -/
def calculateVolume (trades : List Trade) (startTime : ℤ) : VolumeWindow :=
  trades.foldl (volStep startTime) volumeZero

/-- A record passes the validity screens of calculateVolume and the
since-filter exactly when all three numeric fields parse and its timestamp
is at least startTime. -/
def countedKeep (startTime : ℤ) (t : Trade) : Bool :=
  t.time.isSome && t.price.isSome && t.qty.isSome &&
    decide (startTime ≤ t.time.getD 0)

/-- Modelled from the spec (amended): the aggregate described by the spec
with the future-timestamp rejection removed — a trade is counted iff it is
valid and timestamped at or after sinceTimestamp, contributing price*qty to
the value and qty to the quantity of the sell side when isBuyerMaker, else
of the buy side. -/
def aggregateAmended (trades : List Trade) (startTime : ℤ) : VolumeWindow :=
  let kept := trades.filter (countedKeep startTime)
  { totalSellValue :=
      ((kept.filter (fun t => t.isBuyerMaker)).map
        (fun t => t.price.getD 0 * t.qty.getD 0)).sum
  , totalSellAmount :=
      ((kept.filter (fun t => t.isBuyerMaker)).map (fun t => t.qty.getD 0)).sum
  , totalBuyValue :=
      ((kept.filter (fun t => !t.isBuyerMaker)).map
        (fun t => t.price.getD 0 * t.qty.getD 0)).sum
  , totalBuyAmount :=
      ((kept.filter (fun t => !t.isBuyerMaker)).map (fun t => t.qty.getD 0)).sum }

/-- Modelled from the spec (as claimed): the aggregate that additionally
rejects trades timestamped after now. -/
def aggregateClaimed (trades : List Trade) (startTime now : ℤ) : VolumeWindow :=
  let kept := trades.filter
    (fun t => countedKeep startTime t && decide (t.time.getD 0 ≤ now))
  { totalSellValue :=
      ((kept.filter (fun t => t.isBuyerMaker)).map
        (fun t => t.price.getD 0 * t.qty.getD 0)).sum
  , totalSellAmount :=
      ((kept.filter (fun t => t.isBuyerMaker)).map (fun t => t.qty.getD 0)).sum
  , totalBuyValue :=
      ((kept.filter (fun t => !t.isBuyerMaker)).map
        (fun t => t.price.getD 0 * t.qty.getD 0)).sum
  , totalBuyAmount :=
      ((kept.filter (fun t => !t.isBuyerMaker)).map (fun t => t.qty.getD 0)).sum }

/-- Componentwise sum of two volume windows, used to restate the left fold
of calculateVolume. -/
def addW (a b : VolumeWindow) : VolumeWindow :=
  ⟨a.totalSellValue + b.totalSellValue, a.totalSellAmount + b.totalSellAmount,
   a.totalBuyValue + b.totalBuyValue, a.totalBuyAmount + b.totalBuyAmount⟩

theorem addW_zero (a : VolumeWindow) : addW a volumeZero = a := by
  ext <;> simp [addW, volumeZero]

theorem zero_addW (a : VolumeWindow) : addW volumeZero a = a := by
  ext <;> simp [addW, volumeZero]

theorem addW_assoc (a b c : VolumeWindow) :
    addW (addW a b) c = addW a (addW b c) := by
  ext <;> simp [addW] <;> ring

theorem volStep_eq_addW (s : ℤ) (w : VolumeWindow) (t : Trade) :
    volStep s w t = addW w (volStep s volumeZero t) := by
  rcases t with ⟨tm, pr, qt, mk⟩
  rcases tm with _ | tm <;> rcases pr with _ | pr <;> rcases qt with _ | qt <;>
    simp [volStep, addW_zero] <;>
    split_ifs <;> ext <;> simp [addW, volumeZero]

theorem foldl_volStep (s : ℤ) :
    ∀ (l : List Trade) (w : VolumeWindow),
      l.foldl (volStep s) w = addW w (l.foldl (volStep s) volumeZero) := by
  intro l
  induction l with
  | nil => intro w; simp [addW_zero]
  | cons t rest ih =>
    intro w
    simp only [List.foldl_cons]
    rw [ih (volStep s w t), ih (volStep s volumeZero t),
        volStep_eq_addW s w t, addW_assoc]

/-- C2 (amended): calculateVolume counts a trade iff it is valid and its
timestamp is at least sinceTimestamp — there is no rejection of
future-stamped trades — and each counted trade contributes price*qty to the
value total and qty to the quantity total of the sell side when
isBuyerMaker is true, else of the buy side. -/
theorem calculateVolume_eq_aggregateAmended :
    ∀ (trades : List Trade) (startTime : ℤ),
      calculateVolume trades startTime = aggregateAmended trades startTime := by
  intro trades s
  induction trades with
  | nil => rfl
  | cons t rest ih =>
    have step : calculateVolume (t :: rest) s
        = addW (volStep s volumeZero t) (calculateVolume rest s) := by
      simp only [calculateVolume, List.foldl_cons]
      exact foldl_volStep s rest (volStep s volumeZero t)
    rw [step, ih]
    rcases t with ⟨tm, pr, qt, mk⟩
    rcases tm with _ | tm
    · simp [volStep, zero_addW, aggregateAmended, List.filter_cons, countedKeep]
    rcases pr with _ | pr
    · simp [volStep, zero_addW, aggregateAmended, List.filter_cons, countedKeep]
    rcases qt with _ | qt
    · simp [volStep, zero_addW, aggregateAmended, List.filter_cons, countedKeep]
    by_cases htm : tm < s
    · have hk : countedKeep s ⟨some tm, some pr, some qt, mk⟩ = false := by
        simp [countedKeep]
        omega
      simp [volStep, htm, zero_addW, aggregateAmended, List.filter_cons, hk]
    · have hk : countedKeep s ⟨some tm, some pr, some qt, mk⟩ = true := by
        simp [countedKeep]
        omega
      cases mk <;>
        · simp [volStep, htm, aggregateAmended, List.filter_cons, hk]
          ext <;> simp [addW, volumeZero] <;> ring

/-- A trade stamped in the future of the reference time 1000. -/
def futureTrade : Trade := ⟨some 2000, some 2, some 3, false⟩

/-- C2 counterexample: with now = 1000, the future-stamped trade (time 2000)
is still counted by calculateVolume, so the code disagrees with the claimed
aggregator that rejects trades timestamped after now. -/
theorem calculateVolume_counts_future_trade :
    calculateVolume [futureTrade] 0 ≠ aggregateClaimed [futureTrade] 0 1000 := by
  intro h
  have h2 := congrArg VolumeWindow.totalBuyValue h
  norm_num [calculateVolume, volStep, volumeZero, futureTrade, aggregateClaimed,
    countedKeep, List.filter] at h2

/-- Is parseInt(trade.time) <= targetTime?  An unparseable time compares
false (NaN semantics). -/
def jsTimeLe (t : Trade) (targetTime : ℤ) : Bool :=
  match t.time with
  | some n => decide (n ≤ targetTime)
  | none => false

/-- parseFloat(trade.price): NaN when the field is missing/unparseable. -/
def jsPriceOf (t : Trade) : JSNum :=
  match t.price with
  | some q => JSNum.num q
  | none => JSNum.nan

/-- getPriceAtTime (src/bot.js:381-401): null on an empty list; if no trade
is timestamped at or before targetTime, the price of the LAST array element
(trades[trades.length - 1]); otherwise the qualifying trade nearest in time
to targetTime, the reduce keeping the earlier of two equally close
candidates. -/
def getPriceAtTime (trades : List Trade) (targetTime : ℤ) : Option JSNum :=
  match trades with
  | [] => none
  | _ :: _ =>
    match trades.filter (fun t => jsTimeLe t targetTime) with
    | [] => trades.getLast?.map jsPriceOf
    | v :: vs =>
      let closest := vs.foldl
        (fun prev curr =>
          if |curr.time.getD 0 - targetTime| < |prev.time.getD 0 - targetTime|
          then curr else prev) v
      some (jsPriceOf closest)

/-- C3 (amended): when the trade list is non-empty and no trade is
timestamped at or before targetTime, getPriceAtTime returns the price of
the LAST element of the list — the oldest trade only when the feed is
ordered newest-first — rather than the oldest trade unconditionally. -/
theorem getPriceAtTime_fallback_last (trades : List Trade) (targetTime : ℤ)
    (hne : trades ≠ [])
    (hnone : ∀ t ∈ trades, jsTimeLe t targetTime = false) :
    getPriceAtTime trades targetTime = trades.getLast?.map jsPriceOf := by
  have hfilter : trades.filter (fun t => jsTimeLe t targetTime) = [] := by
    rw [List.filter_eq_nil_iff]
    intro t ht
    simp [hnone t ht]
  cases trades with
  | nil => cases hne rfl
  | cons a l => simp [getPriceAtTime, hfilter]

/-- Trades at timestamps [100, 200, 300] with prices [1, 2, 3], oldest
first. -/
def priceLookupTrades : List Trade :=
  [⟨some 100, some 1, some 1, false⟩, ⟨some 200, some 2, some 1, false⟩,
   ⟨some 300, some 3, some 1, false⟩]

/-- C3 counterexample: for trades at timestamps [100, 200, 300] with prices
[1, 2, 3] in that order and target 50, getPriceAtTime returns the price 3
of the last array element, not the oldest trade's price 1 as claimed. -/
theorem getPriceAtTime_not_oldest :
    getPriceAtTime priceLookupTrades 50 ≠ some (JSNum.num 1) := by
  decide

/-- Witness for the amended C3 theorem at the concrete example list. -/
theorem getPriceAtTime_fallback_last_witness :
    getPriceAtTime priceLookupTrades 50 = priceLookupTrades.getLast?.map jsPriceOf :=
  getPriceAtTime_fallback_last priceLookupTrades 50 (by decide) (by decide)

/-- Per-window figures as consumed by the signal builder: values stay
finite, amounts may be Infinity/NaN because the estimator divides by
currentPrice. -/
structure WindowFigures where
  totalBuyValue : ℚ
  totalSellValue : ℚ
  totalBuyAmount : JSNum
  totalSellAmount : JSNum
deriving DecidableEq, Repr

/-- An actual aggregated window viewed in the mixed figure type. -/
def windowOf (w : VolumeWindow) : WindowFigures :=
  ⟨w.totalBuyValue, w.totalSellValue,
   JSNum.num w.totalBuyAmount, JSNum.num w.totalSellAmount⟩

/-- One candidate timeframe of sendTcapySignal (src/bot.js:1002-1007). -/
structure TimeframeEntry where
  name : String
  change : ℚ
  data : WindowFigures
deriving DecidableEq, Repr

/-- One insertion step of a stable comparator sort: the inserted element t
goes after every element h with cmp t h > 0 and before the first other one.
Array.prototype.sort is stable (ES2019), and in the recursion below t
originates earlier in the input than everything already sorted, so this
reproduces the sorted permutation exactly. -/
def jsInsert {α : Type} (cmp : α → α → ℚ) (t : α) : List α → List α
  | [] => [t]
  | h :: rest => if 0 < cmp t h then h :: jsInsert cmp t rest else t :: h :: rest

/-- Stable sort by a JavaScript numeric comparator. -/
def jsortBy {α : Type} (cmp : α → α → ℚ) : List α → List α
  | [] => []
  | h :: rest => jsInsert cmp h (jsortBy cmp rest)

/-- The comparator of src/bot.js:1010: (a, b) => b.change - a.change, a sort
by SIGNED change descending. -/
def tfCmp (a b : TimeframeEntry) : ℚ := b.change - a.change

/-- Primary-timeframe selection (src/bot.js:1010-1011): first element of the
sorted copy of the candidate list. -/
def selectPrimaryTimeframe (timeframes : List TimeframeEntry) :
    Option TimeframeEntry :=
  (jsortBy tfCmp timeframes).head?

/-- Modelled from the spec (amended): the first candidate attaining the
largest SIGNED percentChange. -/
def argmaxSigned : List TimeframeEntry → Option TimeframeEntry
  | [] => none
  | t :: rest =>
    match argmaxSigned rest with
    | none => some t
    | some m => some (if t.change < m.change then m else t)

/-- Modelled from the spec (as claimed): the first candidate attaining the
largest ABSOLUTE percentChange. -/
def argmaxAbsFirst : List TimeframeEntry → Option TimeframeEntry
  | [] => none
  | t :: rest =>
    match argmaxAbsFirst rest with
    | none => some t
    | some m => some (if |t.change| < |m.change| then m else t)

/-- C1 (amended): the primary timeframe is the first candidate with the
largest SIGNED percentChange (ties broken by input order); the sort
comparator is b.change - a.change, not a comparison of absolute values. -/
theorem selectPrimaryTimeframe_eq_argmaxSigned :
    ∀ timeframes, selectPrimaryTimeframe timeframes = argmaxSigned timeframes := by
  intro l
  induction l with
  | nil => rfl
  | cons t rest ih =>
    simp only [selectPrimaryTimeframe, jsortBy] at ih ⊢
    cases hs : jsortBy tfCmp rest with
    | nil =>
      rw [hs] at ih
      simp [jsInsert, argmaxSigned, ← ih]
    | cons m tail =>
      rw [hs] at ih
      simp only [List.head?_cons] at ih
      have hiff : (0 < tfCmp t m) ↔ t.change < m.change := by
        simp [tfCmp, sub_pos]
      by_cases hc : t.change < m.change
      · have h0 : (0:ℚ) < tfCmp t m := hiff.mpr hc
        simp [jsInsert, h0, argmaxSigned, ← ih, hc]
      · have h0 : ¬ (0:ℚ) < tfCmp t m := fun h => hc (hiff.mp h)
        simp [jsInsert, h0, argmaxSigned, ← ih, hc]

/-- The all-zero window in the mixed figure type. -/
def figuresZero : WindowFigures := ⟨0, 0, JSNum.num 0, JSNum.num 0⟩

/-- Two candidates with changes -10 and +2. -/
def timeframeExample : List TimeframeEntry :=
  [⟨"15 Minutes", -10, figuresZero⟩, ⟨"30 Minutes", 2, figuresZero⟩]

/-- C1 counterexample: with candidate changes [-10, +2] the source selects
the +2 candidate (largest signed change) while the claimed rule (largest
absolute change, first on ties) selects the -10 candidate. -/
theorem selectPrimary_not_argmaxAbs :
    (selectPrimaryTimeframe timeframeExample).map TimeframeEntry.change ≠
      (argmaxAbsFirst timeframeExample).map TimeframeEntry.change := by
  norm_num [selectPrimaryTimeframe, jsortBy, jsInsert, tfCmp, argmaxAbsFirst,
    timeframeExample]

/-- calculateBuyRatio (src/bot.js:338-346): the step function from percent
change to buy-side ratio used inside estimateVolumeDistribution. -/
def calculateBuyRatio (change : ℚ) : ℚ :=
  if change > 2 then 0.8
  else if change > 1 then 0.7
  else if change > 0.2 then 0.6
  else if change > -0.2 then 0.5
  else if change > -1 then 0.4
  else if change > -2 then 0.3
  else 0.2

/-- The tradeData record passed to estimateVolumeDistribution
(src/bot.js:973-979). -/
structure TradeData where
  currentPrice : ℚ
  change15Min : ℚ
  change30Min : ℚ
  change1Hour : ℚ
  change4Hour : ℚ
deriving DecidableEq, Repr

/-- The result of estimateVolumeDistribution: exactly three windows —
hour1, min30, min15 — and no 4-hour entry. -/
structure EstimatedVolumes where
  hour1 : WindowFigures
  min30 : WindowFigures
  min15 : WindowFigures
deriving DecidableEq, Repr

/-- estimateVolumeDistribution (src/bot.js:331-378): fixed window shares of
the 24h total, slightly larger on an up-move, split by the
change-direction-biased buy ratio; amounts are Math.round(value /
currentPrice) with no guard on currentPrice. -/
def estimateVolumeDistribution (totalVolume24h : ℚ) (tradeData : TradeData) :
    EstimatedVolumes :=
  let hour1Percent : ℚ := if tradeData.change1Hour > 0 then 0.1 else 0.08
  let min30Percent : ℚ := if tradeData.change30Min > 0 then 0.06 else 0.05
  let min15Percent : ℚ := if tradeData.change15Min > 0 then 0.04 else 0.03
  let buyRatio1h := calculateBuyRatio tradeData.change1Hour
  let buyRatio30m := calculateBuyRatio tradeData.change30Min
  let buyRatio15m := calculateBuyRatio tradeData.change15Min
  let volume1h := totalVolume24h * hour1Percent
  let volume30m := totalVolume24h * min30Percent
  let volume15m := totalVolume24h * min15Percent
  { hour1 :=
      ⟨volume1h * buyRatio1h, volume1h * (1 - buyRatio1h),
       jround (jdiv (volume1h * buyRatio1h) tradeData.currentPrice),
       jround (jdiv (volume1h * (1 - buyRatio1h)) tradeData.currentPrice)⟩
  , min30 :=
      ⟨volume30m * buyRatio30m, volume30m * (1 - buyRatio30m),
       jround (jdiv (volume30m * buyRatio30m) tradeData.currentPrice),
       jround (jdiv (volume30m * (1 - buyRatio30m)) tradeData.currentPrice)⟩
  , min15 :=
      ⟨volume15m * buyRatio15m, volume15m * (1 - buyRatio15m),
       jround (jdiv (volume15m * buyRatio15m) tradeData.currentPrice),
       jround (jdiv (volume15m * (1 - buyRatio15m)) tradeData.currentPrice)⟩ }

set_option maxHeartbeats 1000000 in
/-- C7: calculateBuyRatio is monotone non-decreasing in the change, valued
in [0.2, 0.8], maps the neutral band around zero to 0.5, and at changes +3
and -3 yields a ratio strictly above, resp. below, 0.5 within the caps. -/
theorem calculateBuyRatio_props :
    (∀ x y : ℚ, x ≤ y → calculateBuyRatio x ≤ calculateBuyRatio y) ∧
    (∀ x : ℚ, 0.2 ≤ calculateBuyRatio x ∧ calculateBuyRatio x ≤ 0.8) ∧
    (∀ x : ℚ, -0.2 < x → x ≤ 0.2 → calculateBuyRatio x = 0.5) ∧
    (0.5 < calculateBuyRatio 3 ∧ calculateBuyRatio 3 ≤ 0.8) ∧
    (calculateBuyRatio (-3) < 0.5 ∧ 0.2 ≤ calculateBuyRatio (-3)) := by
  refine ⟨?_, ?_, ?_, ?_, ?_⟩
  · intro x y hxy
    unfold calculateBuyRatio
    split_ifs <;> linarith
  · intro x
    unfold calculateBuyRatio
    split_ifs <;> norm_num
  · intro x h1 h2
    unfold calculateBuyRatio
    split_ifs <;> first | rfl | linarith
  · constructor <;> norm_num [calculateBuyRatio]
  · constructor <;> norm_num [calculateBuyRatio]

/-- Witness for C7 at the concrete changes 0, 3 and -3. -/
theorem calculateBuyRatio_props_witness :
    calculateBuyRatio 0 ≤ calculateBuyRatio 3 ∧ calculateBuyRatio 0 = 0.5 :=
  ⟨calculateBuyRatio_props.1 0 3 (by norm_num),
   calculateBuyRatio_props.2.2.1 0 (by norm_num) (by norm_num)⟩

/-- The buy ratio always lies strictly between 0 and 1, so both sides of
the estimated split are positive fractions. -/
theorem calculateBuyRatio_pos (x : ℚ) :
    0 < calculateBuyRatio x ∧ calculateBuyRatio x < 1 := by
  unfold calculateBuyRatio
  split_ifs <;> norm_num

/-- C5 (amended): estimateVolumeDistribution has no currentPrice guard and
never fails; with currentPrice = 0 and a positive 24h volume the hour1 buy
and sell amounts are Infinity (the division by zero the claimed InvalidInput
error was supposed to prevent). -/
theorem estimateVolume_no_guard (v : ℚ) (td : TradeData)
    (hv : 0 < v) (hp : td.currentPrice = 0) :
    (estimateVolumeDistribution v td).hour1.totalBuyAmount = JSNum.inf ∧
    (estimateVolumeDistribution v td).hour1.totalSellAmount = JSNum.inf := by
  obtain ⟨hr0, hr1⟩ := calculateBuyRatio_pos td.change1Hour
  by_cases hch : td.change1Hour > 0
  · have hbuy : 0 < v * (0.1:ℚ) * calculateBuyRatio td.change1Hour :=
      mul_pos (mul_pos hv (by norm_num)) hr0
    have hsell : 0 < v * (0.1:ℚ) * (1 - calculateBuyRatio td.change1Hour) :=
      mul_pos (mul_pos hv (by norm_num)) (by linarith)
    constructor <;>
      simp [estimateVolumeDistribution, hp, hch, jdiv, jround,
        hbuy, hbuy.ne', hsell, hsell.ne']
  · have hbuy : 0 < v * (0.08:ℚ) * calculateBuyRatio td.change1Hour :=
      mul_pos (mul_pos hv (by norm_num)) hr0
    have hsell : 0 < v * (0.08:ℚ) * (1 - calculateBuyRatio td.change1Hour) :=
      mul_pos (mul_pos hv (by norm_num)) (by linarith)
    constructor <;>
      simp [estimateVolumeDistribution, hp, hch, jdiv, jround,
        hbuy, hbuy.ne', hsell, hsell.ne']

/-- Witness for the amended C5 theorem at 24h volume 100000, currentPrice 0
and 1h change +3. -/
theorem estimateVolume_no_guard_witness :
    (estimateVolumeDistribution 100000 ⟨0, 0, 0, 3, 0⟩).hour1.totalBuyAmount
        = JSNum.inf ∧
    (estimateVolumeDistribution 100000 ⟨0, 0, 0, 3, 0⟩).hour1.totalSellAmount
        = JSNum.inf :=
  estimateVolume_no_guard 100000 ⟨0, 0, 0, 3, 0⟩ (by norm_num) rfl

/-- C5 counterexample: at currentPrice = 0 (violating currentPrice > 0) the
function does not fail with an InvalidInput error; it returns a result whose
hour1 buy amount is Infinity, contradicting the no-NaN/Infinity claim. -/
theorem estimateVolume_inf_at_zero_price :
    (estimateVolumeDistribution 100000 ⟨0, 0, 0, 3, 0⟩).hour1.totalBuyAmount
      = JSNum.inf := by
  norm_num [estimateVolumeDistribution, calculateBuyRatio, jdiv, jround]

/-- isActualVolumeReliable (src/bot.js:985-987): parseFloat applied to the
already numeric accumulators is the identity, so the test is exactly
buy+sell > 1% of the 24h total — the only data-quality condition the caller
applies. -/
def isActualVolumeReliable (volume : VolumeWindow) (volume24h : ℚ) : Bool :=
  decide (volume.totalBuyValue + volume.totalSellValue > volume24h * 0.01)

/-- The per-window actual-vs-estimated choice of src/bot.js:989-991. -/
def chooseWindowData (actual : VolumeWindow) (est : WindowFigures)
    (volume24h : ℚ) : WindowFigures :=
  if isActualVolumeReliable actual volume24h then windowOf actual else est

/-- C4 (amended): the caller substitutes the estimated figures exactly when
the actual buy+sell value is at most 1% of the 24h total; neither the
nested-window monotonicity invariant nor a minimum trade count is ever
consulted. -/
theorem chooseWindowData_eq :
    ∀ (actual : VolumeWindow) (est : WindowFigures) (v24 : ℚ),
      chooseWindowData actual est v24 =
        if actual.totalBuyValue + actual.totalSellValue ≤ v24 * 0.01
        then est else windowOf actual := by
  intro a est v
  simp only [chooseWindowData, isActualVolumeReliable, decide_eq_true_eq]
  split_ifs with h1 h2 h3
  · linarith
  · rfl
  · rfl
  · linarith

/-- One whale trade worth 1000 quote units. -/
def whaleTrade : Trade := ⟨some 500, some 100, some 10, false⟩

/-- Modelled from the spec (as claimed): prefer the estimate when the actual
value is below the plausible fraction of the 24h total, or the monotonicity
invariant fails, or fewer than the minimum 100 trades were available. -/
def usesEstimateClaimed (w : VolumeWindow) (v24 : ℚ) (tradeCount : ℕ)
    (monoOK : Bool) : Bool :=
  decide (w.totalBuyValue + w.totalSellValue < v24 * 0.01) || !monoOK ||
    decide (tradeCount < 100)

/-- C4 counterexample: a single whale trade (1 trade, fewer than the minimum
count of 100) yields a window worth 1000, above 1% of the 24h volume 10000,
so the code keeps the actual figures while the claimed rule demands the
estimate. -/
theorem reliability_ignores_trade_count :
    isActualVolumeReliable (calculateVolume [whaleTrade] 0) 10000 = true ∧
    usesEstimateClaimed (calculateVolume [whaleTrade] 0) 10000
      (List.length [whaleTrade]) true = true := by
  constructor
  · norm_num [isActualVolumeReliable, calculateVolume, volStep, volumeZero,
      whaleTrade]
  · norm_num [usesEstimateClaimed]

/-- The buy/sell ratio of src/bot.js:1017: defined as exactly 1 when
sellValue is 0, else buyValue / sellValue. -/
def buySellRatioOf (buyValue sellValue : ℚ) : ℚ :=
  if sellValue = 0 then 1 else buyValue / sellValue

/-- C8: with sellValue = 0 the buy/sell ratio of the primary window is
exactly 1 (not Infinity) for every buyValue, and with nonzero sellValue it
is buyValue / sellValue. -/
theorem buySellRatioOf_spec :
    ∀ b s : ℚ, (s = 0 → buySellRatioOf b s = 1) ∧
      (s ≠ 0 → buySellRatioOf b s = b / s) := by
  intro b s
  constructor <;> intro h <;> simp [buySellRatioOf, h]

/-- Witness for C8 at buyValue = 500, sellValue = 0. -/
theorem buySellRatioOf_spec_witness : buySellRatioOf 500 0 = 1 :=
  (buySellRatioOf_spec 500 0).1 rfl

/-- The sixteen magnitude tiers of generateSignalMessage
(src/bot.js:582-614), named after their message texts. -/
inductive SignalTier where
  | extremeSurge | massiveBreakout | strongBullRally | powerfulMomentum
  | strongUptrend | solidBullishMove | positiveTrend | mildStrength
  | gradualGrowth | earlyBullishSigns | consolidationPhase | minorWeakness
  | mildCorrection | pullbackZone | significantDecline | majorCorrection
deriving DecidableEq, Repr

/-- The six volume-analysis clauses of generateSignalMessage
(src/bot.js:617-629). -/
inductive VolumeNote where
  | extremelyHighBuyPressure | strongBuyPressure | heavyDistribution
  | sellersInControl | extremelyHighActivity | highTradingVolume
deriving DecidableEq, Repr

/-- The structural content of the string generateSignalMessage builds: the
timeframe label, the magnitude tier of the base message (none when no
branch matched, leaving the base message empty), and the appended volume
clause (none when no clause matched). -/
structure SignalMessage where
  timeframe : String
  tier : Option SignalTier
  note : Option VolumeNote
deriving DecidableEq, Repr

/-- generateSignalMessage (src/bot.js:577-632).  The change parameter is a
JavaScript number that can be NaN (a malformed percent change); every
comparison against NaN is false, so no tier matches and the base message
stays empty.  No branch of the source throws. -/
def generateSignalMessage (timeframe : String) (change : JSNum)
    (buySellRatio totalVolume : ℚ) : SignalMessage :=
  let tier : Option SignalTier :=
    if jge change 20 then some SignalTier.extremeSurge
    else if jge change 15 then some SignalTier.massiveBreakout
    else if jge change 10 then some SignalTier.strongBullRally
    else if jge change 7 then some SignalTier.powerfulMomentum
    else if jge change 5 then some SignalTier.strongUptrend
    else if jge change 3 then some SignalTier.solidBullishMove
    else if jge change 2 then some SignalTier.positiveTrend
    else if jge change 1 then some SignalTier.mildStrength
    else if jge change 0.5 then some SignalTier.gradualGrowth
    else if jge change 0.2 then some SignalTier.earlyBullishSigns
    else if jgtn change (-0.2) && jltn change 0.2 then
      some SignalTier.consolidationPhase
    else if jle change (-0.2) && jgtn change (-0.5) then
      some SignalTier.minorWeakness
    else if jle change (-0.5) && jgtn change (-1) then
      some SignalTier.mildCorrection
    else if jle change (-1) && jgtn change (-3) then
      some SignalTier.pullbackZone
    else if jle change (-3) && jgtn change (-7) then
      some SignalTier.significantDecline
    else if jle change (-7) then some SignalTier.majorCorrection
    else none
  let note : Option VolumeNote :=
    if buySellRatio > 2 ∧ totalVolume > 1000 then
      some VolumeNote.extremelyHighBuyPressure
    else if buySellRatio > 1.5 ∧ totalVolume > 1000 then
      some VolumeNote.strongBuyPressure
    else if buySellRatio < 0.5 ∧ totalVolume > 1000 then
      some VolumeNote.heavyDistribution
    else if buySellRatio < 0.8 ∧ totalVolume > 1000 then
      some VolumeNote.sellersInControl
    else if totalVolume > 3000 then some VolumeNote.extremelyHighActivity
    else if totalVolume > 2000 then some VolumeNote.highTradingVolume
    else none
  ⟨timeframe, tier, note⟩

/-- C9 (amended): generateSignalMessage never fails on any input.  A
non-numeric percentChange (NaN) is not rejected with an InvalidInput error:
it matches no magnitude tier and the base message is empty, while every
numeric percentChange matches exactly one tier. -/
theorem generateSignalMessage_total :
    (∀ (tf : String) (r v : ℚ),
      (generateSignalMessage tf JSNum.nan r v).tier = none) ∧
    (∀ (tf : String) (q : ℚ) (r v : ℚ),
      ((generateSignalMessage tf (JSNum.num q) r v).tier).isSome = true) := by
  constructor
  · intro tf r v
    simp [generateSignalMessage, jge, jgtn, jle, jltn]
  · intro tf q r v
    by_cases h1 : (20:ℚ) ≤ q
    · simp [generateSignalMessage, jge, h1]
    by_cases h2 : (15:ℚ) ≤ q
    · simp [generateSignalMessage, jge, h1, h2]
    by_cases h3 : (10:ℚ) ≤ q
    · simp [generateSignalMessage, jge, h1, h2, h3]
    by_cases h4 : (7:ℚ) ≤ q
    · simp [generateSignalMessage, jge, h1, h2, h3, h4]
    by_cases h5 : (5:ℚ) ≤ q
    · simp [generateSignalMessage, jge, h1, h2, h3, h4, h5]
    by_cases h6 : (3:ℚ) ≤ q
    · simp [generateSignalMessage, jge, h1, h2, h3, h4, h5, h6]
    by_cases h7 : (2:ℚ) ≤ q
    · simp [generateSignalMessage, jge, h1, h2, h3, h4, h5, h6, h7]
    by_cases h8 : (1:ℚ) ≤ q
    · simp [generateSignalMessage, jge, h1, h2, h3, h4, h5, h6, h7, h8]
    by_cases h9 : (0.5:ℚ) ≤ q
    · simp [generateSignalMessage, jge, h1, h2, h3, h4, h5, h6, h7, h8, h9]
    by_cases h10 : (0.2:ℚ) ≤ q
    · simp [generateSignalMessage, jge, h1, h2, h3, h4, h5, h6, h7, h8, h9, h10]
    have hq02 : q < 0.2 := lt_of_not_le h10
    by_cases h11 : (-0.2:ℚ) < q
    · simp [generateSignalMessage, jge, jgtn, jltn, h1, h2, h3, h4, h5, h6, h7,
        h8, h9, h10, h11, hq02]
    have hq2 : q ≤ -0.2 := le_of_not_lt h11
    by_cases h12 : (-0.5:ℚ) < q
    · simp [generateSignalMessage, jge, jgtn, jltn, jle, h1, h2, h3, h4, h5, h6,
        h7, h8, h9, h10, h11, h12, hq2]
    have hq5 : q ≤ -0.5 := le_of_not_lt h12
    by_cases h13 : (-1:ℚ) < q
    · simp [generateSignalMessage, jge, jgtn, jltn, jle, h1, h2, h3, h4, h5, h6,
        h7, h8, h9, h10, h11, h12, h13, hq2, hq5]
    have hq1 : q ≤ -1 := le_of_not_lt h13
    by_cases h14 : (-3:ℚ) < q
    · simp [generateSignalMessage, jge, jgtn, jltn, jle, h1, h2, h3, h4, h5, h6,
        h7, h8, h9, h10, h11, h12, h13, h14, hq2, hq5, hq1]
    have hq3 : q ≤ -3 := le_of_not_lt h14
    by_cases h15 : (-7:ℚ) < q
    · simp [generateSignalMessage, jge, jgtn, jltn, jle, h1, h2, h3, h4, h5, h6,
        h7, h8, h9, h10, h11, h12, h13, h14, h15, hq2, hq5, hq1, hq3]
    have hq7 : q ≤ -7 := le_of_not_lt h15
    simp [generateSignalMessage, jge, jgtn, jltn, jle, h1, h2, h3, h4, h5, h6,
      h7, h8, h9, h10, h11, h12, h13, h14, h15, hq7]

/-- C9 counterexample: at the non-numeric change NaN with ratio 1 and volume
500 the function returns the well-defined empty-tier message instead of
failing with an InvalidInput error. -/
theorem generateSignalMessage_nan_returns :
    generateSignalMessage "1 Hour" JSNum.nan 1 500 = ⟨"1 Hour", none, none⟩ := by
  norm_num [generateSignalMessage, jge, jgtn, jle, jltn]

/-- The candidate list of src/bot.js:1002-1007: the 15m, 30m and 1h entries
carry the reconciled (actual-or-estimated) figures, while the 4 Hours entry
always carries the actual aggregated window. -/
def signalTimeframes (c15 c30 c1 c4 : ℚ)
    (a15 a30 a1 a4 : VolumeWindow) (est : EstimatedVolumes) (v24 : ℚ) :
    List TimeframeEntry :=
  [ ⟨"15 Minutes", c15, chooseWindowData a15 est.min15 v24⟩
  , ⟨"30 Minutes", c30, chooseWindowData a30 est.min30 v24⟩
  , ⟨"1 Hour", c1, chooseWindowData a1 est.hour1 v24⟩
  , ⟨"4 Hours", c4, windowOf a4⟩ ]

/-- C10: the 4-hour entry of the candidate list is the actual aggregated
window for every possible estimate — the estimate-vs-actual substitution is
applied only to the 15m, 30m and 1h slots, and estimateVolumeDistribution
itself produces only hour1, min30 and min15 figures (its result type has no
4-hour component). -/
theorem signalTimeframes_fourHours_actual :
    ∀ (c15 c30 c1 c4 : ℚ) (a15 a30 a1 a4 : VolumeWindow)
      (est est' : EstimatedVolumes) (v24 v24' : ℚ),
      (signalTimeframes c15 c30 c1 c4 a15 a30 a1 a4 est v24).get? 3 =
        some ⟨"4 Hours", c4, windowOf a4⟩ ∧
      (signalTimeframes c15 c30 c1 c4 a15 a30 a1 a4 est v24).get? 3 =
        (signalTimeframes c15 c30 c1 c4 a15 a30 a1 a4 est' v24').get? 3 := by
  intro c15 c30 c1 c4 a15 a30 a1 a4 est est' v24 v24'
  exact ⟨rfl, rfl⟩

/-- A buy zone as built by generateBuyZones: price and value are finite
rationals; amount may be Infinity/NaN because the default zones divide the
24h volume by currentPrice. -/
structure Zone where
  price : ℚ
  amount : JSNum
  value : ℚ
deriving DecidableEq, Repr

/-- The two default zones of src/bot.js:406-417 at 99% and 97% of the
current price. -/
def defaultBuyZones (currentPrice volume24h : ℚ) : List Zone :=
  [ ⟨currentPrice * 0.99, jround (jdiv (volume24h * 0.07) currentPrice),
     volume24h * 0.07⟩
  , ⟨currentPrice * 0.97, jround (jdiv (volume24h * 0.1) currentPrice),
     volume24h * 0.1⟩ ]

/-- Bucket width for order-book grouping (src/bot.js:424). -/
def priceBucketSize (currentPrice : ℚ) : ℚ :=
  if currentPrice < 0.01 then 0.00001
  else if currentPrice < 1 then 0.0001 else 0.001

/-- Bucket width for trade-history grouping (src/bot.js:496). -/
def tradeWindowSize (currentPrice : ℚ) : ℚ :=
  if currentPrice < 0.01 then 0.0001
  else if currentPrice < 1 then 0.001 else 0.01

/-- Insert one entry into the keyed bucket map (groupedBids/groupedTrades of
src/bot.js:437-443 and 506-513).  JavaScript object keys here are
stringified non-integer numbers, so enumeration order is insertion order,
modelled by an association list extended at the tail; a fresh bucket keeps
the price of its first contributing entry. -/
def addToBuckets : List (ℚ × Zone) → ℚ → ℚ → ℚ → ℚ → List (ℚ × Zone)
  | [], key, price, amount, value => [(key, ⟨price, JSNum.num amount, value⟩)]
  | (k, z) :: rest, key, price, amount, value =>
    if k = key then
      (k, { z with amount := jaddQ z.amount amount,
                   value := z.value + value }) :: rest
    else (k, z) :: addToBuckets rest key price amount value

/-- One step of the orderBook.bids.forEach loop (src/bot.js:426-444): skip
bids worth under 50 quote units or priced below 90% of the current price,
otherwise accumulate into the floor-bucket of the price. -/
def bidStep (currentPrice bsz : ℚ) (buckets : List (ℚ × Zone))
    (bid : ℚ × ℚ) : List (ℚ × Zone) :=
  let price := bid.1
  let amount := bid.2
  let value := price * amount
  if value < 50 then buckets
  else if price < currentPrice * 0.9 then buckets
  else addToBuckets buckets (⌊price / bsz⌋ * bsz) price amount value

/-- One step of the buyTrades.forEach loop (src/bot.js:498-514): skip trades
priced below 90% of the current price, otherwise accumulate price window
buckets.  A record whose price or qty fails parseFloat would build a
NaN-valued bucket (or poison its bucket's value) that the significance
filter below discards, so it is modelled as a skip. -/
def tradeStep (currentPrice tw : ℚ) (buckets : List (ℚ × Zone))
    (t : Trade) : List (ℚ × Zone) :=
  match t.price, t.qty with
  | some price, some qty =>
    let value := price * qty
    if price < currentPrice * 0.9 then buckets
    else addToBuckets buckets (⌊price / tw⌋ * tw) price qty value
  | _, _ => buckets

/-- The ranking comparator for order-book zones (src/bot.js:453-464): both
within 5% of the current price compares by value descending, otherwise by
percentage distance ascending. -/
def bidZoneCmp (currentPrice : ℚ) (a b : Zone) : ℚ :=
  let aDistancePercent := (currentPrice - a.price) / currentPrice * 100
  let bDistancePercent := (currentPrice - b.price) / currentPrice * 100
  if aDistancePercent < 5 ∧ bDistancePercent < 5 then b.value - a.value
  else aDistancePercent - bDistancePercent

/-- The ranking comparator for historical zones (src/bot.js:519-530):
absolute distances within 1% of the current price of each other compare by
value descending, otherwise by absolute distance ascending. -/
def histZoneCmp (currentPrice : ℚ) (a b : Zone) : ℚ :=
  let aDistance := |currentPrice - a.price|
  let bDistance := |currentPrice - b.price|
  if |aDistance - bDistance| < currentPrice * 0.01 then b.value - a.value
  else aDistance - bDistance

/-- The final comparator (a, b) => b.price - a.price of src/bot.js:486 and
548: price descending. -/
def priceDescCmp (a b : Zone) : ℚ := b.price - a.price

/-- Append the default zones that are not within 2% of any zone of the
check list (src/bot.js:474-483 and 536-545). -/
def mergeDefaults (selected checkAgainst defaults : List Zone) : List Zone :=
  selected ++ defaults.filter (fun d =>
    ! checkAgainst.any (fun z => decide (|z.price - d.price| / d.price < 0.02)))

/-- Is parseInt(trade.time) >= cutoff?  NaN compares false. -/
def jsTimeGe (t : Trade) (cutoff : ℤ) : Bool :=
  match t.time with
  | some n => decide (cutoff ≤ n)
  | none => false

/-- Path 1 of generateBuyZones (src/bot.js:420-488): group the order-book
bids into price buckets, keep the buckets worth more than 0.3% of the 24h
volume, rank them with the distance/value comparator, take the top two,
merge in the non-duplicate defaults, and return the result sorted by price
descending and cut to three.  none when the bid list is empty or no bucket
is significant (the source then falls through). -/
def orderBookPath (bids : List (ℚ × ℚ)) (currentPrice volume24h : ℚ)
    (defaults : List Zone) : Option (List Zone) :=
  if bids.isEmpty then none
  else
    let bidZones :=
      (bids.foldl (bidStep currentPrice (priceBucketSize currentPrice))
        []).map Prod.snd
    let significantZones := jsortBy (bidZoneCmp currentPrice)
      (bidZones.filter (fun z => decide (volume24h * 0.003 < z.value)))
    if significantZones.isEmpty then none
    else
      let orderBookZones := significantZones.take 2
      some ((jsortBy priceDescCmp
        (mergeDefaults orderBookZones orderBookZones defaults)).take 3)

/-- Path 2 of generateBuyZones (src/bot.js:491-550): cluster buy-initiated
trades of the last three hours when at least five qualify; the duplicate
check for the defaults runs against ALL historical zones, not only the two
selected ones. -/
def historyPath (trades : List Trade) (currentPrice volume24h : ℚ)
    (defaults : List Zone) (now : ℤ) : Option (List Zone) :=
  let threeHoursAgo := now - 10800000
  let buyTrades := trades.filter
    (fun t => jsTimeGe t threeHoursAgo && !t.isBuyerMaker)
  if 5 ≤ buyTrades.length then
    let historicalZones := jsortBy (histZoneCmp currentPrice)
      (((buyTrades.foldl
          (tradeStep currentPrice (tradeWindowSize currentPrice))
          []).map Prod.snd).filter
        (fun z => decide (volume24h * 0.002 < z.value)))
    if historicalZones.isEmpty then none
    else
      some ((jsortBy priceDescCmp
        (mergeDefaults (historicalZones.take 2) historicalZones
          defaults)).take 3)
  else none

/-- generateBuyZones (src/bot.js:404-571).  Date.now() is passed explicitly
as now.  When the order-book path yields nothing the function falls through
to the trade-history path; when that also yields nothing, three synthetic
zones at 99.5%, 98.5% and 97% of the current price are returned. -/
def generateBuyZones (trades : List Trade)
    (orderBook : Option (List (ℚ × ℚ))) (currentPrice volume24h : ℚ)
    (now : ℤ) : List Zone :=
  let defaults := defaultBuyZones currentPrice volume24h
  match (match orderBook with
         | some bids => orderBookPath bids currentPrice volume24h defaults
         | none => none) with
  | some zs => zs
  | none =>
    match historyPath trades currentPrice volume24h defaults now with
    | some zs => zs
    | none =>
      [ ⟨currentPrice * 0.995, jround (jdiv (volume24h * 0.05) currentPrice),
         volume24h * 0.05⟩
      , ⟨currentPrice * 0.985, jround (jdiv (volume24h * 0.08) currentPrice),
         volume24h * 0.08⟩
      , ⟨currentPrice * 0.97, jround (jdiv (volume24h * 0.12) currentPrice),
         volume24h * 0.12⟩ ]

theorem jsInsert_head {α : Type} (cmp : α → α → ℚ) (t : α) :
    ∀ l : List α, (jsInsert cmp t l).head? =
      some (match l.head? with
            | none => t
            | some h => if 0 < cmp t h then h else t) := by
  intro l
  cases l with
  | nil => rfl
  | cons h rest =>
    simp only [jsInsert, List.head?_cons]
    split_ifs <;> simp

theorem jsInsert_chain {α : Type} (cmp : α → α → ℚ) (R : α → α → Prop)
    (hgt : ∀ a b, 0 < cmp a b → R b a)
    (hnle : ∀ a b, ¬ 0 < cmp a b → R a b) (t : α) :
    ∀ l : List α, l.Chain' R → (jsInsert cmp t l).Chain' R := by
  intro l
  induction l with
  | nil => intro _; simp [jsInsert]
  | cons h rest ih =>
    intro hch
    obtain ⟨hhd, htl⟩ := List.chain'_cons'.mp hch
    simp only [jsInsert]
    split_ifs with hc
    · rw [List.chain'_cons']
      refine ⟨?_, ih htl⟩
      intro b hb
      rw [jsInsert_head] at hb
      cases rest with
      | nil =>
        simp only [List.head?_nil, Option.mem_def, Option.some.injEq] at hb
        subst hb
        exact hgt t h hc
      | cons r rs =>
        simp only [List.head?_cons, Option.mem_def, Option.some.injEq] at hb
        by_cases hc2 : 0 < cmp t r
        · rw [if_pos hc2] at hb
          subst hb
          exact hhd r (by simp)
        · rw [if_neg hc2] at hb
          subst hb
          exact hgt t h hc
    · rw [List.chain'_cons']
      refine ⟨?_, hch⟩
      intro b hb
      simp only [List.head?_cons, Option.mem_def, Option.some.injEq] at hb
      subst hb
      exact hnle t h hc

theorem jsortBy_chain {α : Type} (cmp : α → α → ℚ) (R : α → α → Prop)
    (hgt : ∀ a b, 0 < cmp a b → R b a)
    (hnle : ∀ a b, ¬ 0 < cmp a b → R a b) :
    ∀ l : List α, (jsortBy cmp l).Chain' R := by
  intro l
  induction l with
  | nil => simp [jsortBy]
  | cons h rest ih => exact jsInsert_chain cmp R hgt hnle h _ ih

/-- The final sort of both zone paths yields prices in non-increasing
order. -/
theorem sortedByPriceDesc (l : List Zone) :
    (jsortBy priceDescCmp l).Chain' (fun a b => b.price ≤ a.price) := by
  apply jsortBy_chain
  · intro a b h
    simp only [priceDescCmp, sub_pos] at h
    exact h.le
  · intro a b h
    simp only [priceDescCmp, sub_pos, not_lt] at h
    exact h

theorem sortedTake3 (l : List Zone) :
    ((jsortBy priceDescCmp l).take 3).length ≤ 3 ∧
    ((jsortBy priceDescCmp l).take 3).Chain' (fun a b => b.price ≤ a.price) :=
  ⟨by simpa using List.length_take_le 3 _, (sortedByPriceDesc l).take 3⟩

theorem orderBookPath_bounded_sorted (bids : List (ℚ × ℚ))
    (currentPrice volume24h : ℚ) (defaults : List Zone) (zs : List Zone)
    (h : orderBookPath bids currentPrice volume24h defaults = some zs) :
    zs.length ≤ 3 ∧ zs.Chain' (fun a b => b.price ≤ a.price) := by
  unfold orderBookPath at h
  dsimp only at h
  split at h
  · exact Option.noConfusion h
  · split at h
    · exact Option.noConfusion h
    · injection h with h
      subst h
      exact sortedTake3 _

theorem historyPath_bounded_sorted (trades : List Trade)
    (currentPrice volume24h : ℚ) (defaults : List Zone) (now : ℤ)
    (zs : List Zone)
    (h : historyPath trades currentPrice volume24h defaults now = some zs) :
    zs.length ≤ 3 ∧ zs.Chain' (fun a b => b.price ≤ a.price) := by
  unfold historyPath at h
  dsimp only at h
  split at h
  · split at h
    · exact Option.noConfusion h
    · injection h with h
      subst h
      exact sortedTake3 _
  · exact Option.noConfusion h

/-- C6: for every trade list, order-book snapshot (or none), positive
current price and 24h volume, generateBuyZones returns at most three zones
whose prices are non-increasing from first to last. -/
theorem generateBuyZones_bounded_sorted (trades : List Trade)
    (orderBook : Option (List (ℚ × ℚ))) (currentPrice volume24h : ℚ)
    (now : ℤ) (hp : 0 < currentPrice) :
    (generateBuyZones trades orderBook currentPrice volume24h now).length ≤ 3 ∧
    (generateBuyZones trades orderBook currentPrice volume24h now).Chain'
      (fun a b => b.price ≤ a.price) := by
  unfold generateBuyZones
  dsimp only
  cases hob : (match orderBook with
               | some bids => orderBookPath bids currentPrice volume24h
                   (defaultBuyZones currentPrice volume24h)
               | none => none) with
  | some zs =>
    cases orderBook with
    | some bids => exact orderBookPath_bounded_sorted _ _ _ _ _ hob
    | none => simp at hob
  | none =>
    cases hhist : historyPath trades currentPrice volume24h
        (defaultBuyZones currentPrice volume24h) now with
    | some zs => exact historyPath_bounded_sorted _ _ _ _ _ _ hhist
    | none =>
      constructor
      · simp
      · refine List.chain'_cons.mpr ⟨?_, List.chain'_cons.mpr ⟨?_, ?_⟩⟩
        · exact mul_le_mul_of_nonneg_left (by norm_num) hp.le
        · exact mul_le_mul_of_nonneg_left (by norm_num) hp.le
        · simp

/-- Witness for C6 at empty inputs with current price 1: the synthetic
fallback zones are returned, three of them, price-sorted. -/
theorem generateBuyZones_bounded_sorted_witness :
    (generateBuyZones [] none 1 0 0).length ≤ 3 ∧
    (generateBuyZones [] none 1 0 0).Chain' (fun a b => b.price ≤ a.price) :=
  generateBuyZones_bounded_sorted [] none 1 0 0 (by norm_num)
